import Mathlib

/-!
Shallow embedding of `src/look_to_point.cpp` (reem_tutorials).

The program subscribes to camera calibration, converts a clicked pixel to a
3D ray with the pinhole model, and dispatches a head-pointing goal.
`double` values are modelled as exact rationals (`ℚ`); ROS middleware calls
(`waitForServer`, `ros::ok`, message delivery, `waitForValid`) are modelled
as boolean/option oracles indexed by the call number, so that each loop of
the source becomes a function of the oracle streams.
-/

namespace LookToPoint

/-- 3D point, as in `geometry_msgs::Point` with `double` fields. -/
structure Point3 where
  x : ℚ
  y : ℚ
  z : ℚ
  deriving DecidableEq, Repr

/-- `geometry_msgs::PointStamped`: header (frame id and stamp) plus a point. -/
structure PointStamped where
  frame_id : String
  stamp : ℚ
  point : Point3
  deriving DecidableEq, Repr

/-- `pr2_controllers_msgs::PointHeadGoal` as filled in by `onMouse`. -/
structure PointHeadGoal where
  pointing_frame : String
  pointing_axis : Point3
  min_duration : ℚ
  max_velocity : ℚ
  target : PointStamped
  deriving DecidableEq, Repr

/-- `static const std::string cameraFrame = "/stereo_optical_frame";` -/
def cameraFrame : String := "/stereo_optical_frame"

/-- OpenCV constant `cv::EVENT_LBUTTONDOWN` (value 1; `EVENT_MOUSEMOVE` is 0,
`EVENT_LBUTTONUP` is 4). -/
def EVENT_LBUTTONDOWN : Int := 1

/-- A 3x3 `cv::Mat` of doubles, indexed as `M row col`. -/
def Mat3 : Type := Fin 3 → Fin 3 → ℚ

/-- Write one entry of a 3x3 matrix: `m.at<double>(i,j) = v`. -/
def matWrite (m : Mat3) (i j : Fin 3) (v : ℚ) : Mat3 :=
  fun a b => if a = i ∧ b = j then v else m a b

/-- `cv::Mat::zeros(3,3,CV_64F)`. -/
def matZeros : Mat3 := fun _ _ => 0

/-- The matrix built by `getCameraIntrinsics` from the flattened row-major
9-element array `K` of the calibration message: zeros, then
`(0,0) := K[0]`, `(1,1) := K[4]`, `(0,2) := K[2]`, `(1,2) := K[5]`,
`(2,2) := 1`, in the source's write order. -/
def matrixOfK (K : Fin 9 → ℚ) : Mat3 :=
  matWrite (matWrite (matWrite (matWrite (matWrite matZeros 0 0 (K 0))
    1 1 (K 4)) 0 2 (K 2)) 1 2 (K 5)) 2 2 1

/-- The global state touched by the calibration callback:
`cv::Mat cameraIntrinsics` (`none` = default-constructed, empty) and
`bool intrinsicsReceived`. -/
structure ProgState where
  cameraIntrinsics : Option Mat3
  intrinsicsReceived : Bool

/-- The globals before `main` populates them. -/
def initState : ProgState := ⟨none, false⟩

/-- `getCameraIntrinsics`: overwrite `cameraIntrinsics` with the 3x3 matrix
extracted from `msg->K` and set `intrinsicsReceived = true`. -/
def getCameraIntrinsics (K : Fin 9 → ℚ) (_s : ProgState) : ProgState :=
  { cameraIntrinsics := some (matrixOfK K), intrinsicsReceived := true }

/-- `onMouse(event, u, v)`: returns the goal passed to
`pointHeadClient->sendGoal`, or `none` when the handler returns early
(every event other than `EVENT_LBUTTONDOWN`). `M` is the global
`cameraIntrinsics` matrix read by the handler, `now` is `ros::Time::now()`.
No bounds check is performed on `u`, `v`. -/
def onMouse (event : Int) (u v : Int) (M : Mat3) (now : ℚ) :
    Option PointHeadGoal :=
  if event ≠ EVENT_LBUTTONDOWN then none
  else
    let x : ℚ := ((u : ℚ) - M 0 2) / M 0 0
    let y : ℚ := ((v : ℚ) - M 1 2) / M 1 1
    let Z : ℚ := 1
    let pointStamped : PointStamped :=
      { frame_id := cameraFrame
        stamp := now
        point := { x := x * Z, y := y * Z, z := Z } }
    some
      { pointing_frame := cameraFrame
        pointing_axis := { x := 0, y := 0, z := 1 }
        min_duration := 1/2
        max_velocity := 1
        target := pointStamped }

/-- The projection exactly as the spec words it (section 4.1): normalized
camera coordinates `x = (u - cx) / fx`, `y = (v - cy) / fy`, fixed depth
`Z = 1.0`, output point `(x*Z, y*Z, Z)`. Stated from the spec, to be
compared with the computation inside `onMouse`. -/
def project_spec (u v : ℤ) (fx fy cx cy : ℚ) : Point3 :=
  let x : ℚ := ((u : ℚ) - cx) / fx
  let y : ℚ := ((v : ℚ) - cy) / fy
  let Z : ℚ := 1
  { x := x * Z, y := y * Z, z := Z }

/-- `max_iterations = 3` in `createPointHeadClient`. -/
def max_iterations : ℕ := 3

/-- `ros::Duration(2.0)` passed to each `waitForServer` call, in seconds. -/
def timeoutPerAttempt : ℚ := 2

/-- The `while` loop of `createPointHeadClient`:
`while (!actionClient->waitForServer(Duration(2.0)) && ros::ok() && iterations < max_iterations) ++iterations;`
`wait c` (resp. `ok c`) is the value returned by `waitForServer` (resp.
`ros::ok`) at the c-th condition evaluation, counting from 0; `waitForServer`
is evaluated at every condition check, so `calls` counts its invocations.
Returns (final `iterations`, number of `waitForServer` calls). Each pass
through the body increments `iterations`, which the guard bounds by
`max_iterations`, so with `iterations = 0` the condition is evaluated at
most `max_iterations + 1` times: fuel `max_iterations + 1` runs the loop to
completion (see `connectAux_fuel_stable`). -/
def connectAux (wait ok : ℕ → Bool) : ℕ → ℕ → ℕ → ℕ × ℕ
  | 0, iterations, calls => (iterations, calls)
  | fuel + 1, iterations, calls =>
    if !(wait calls) && ok calls && decide (iterations < max_iterations) then
      connectAux wait ok fuel (iterations + 1) (calls + 1)
    else (iterations, calls + 1)

/-- `createPointHeadClient`: run the wait loop from `iterations = 0`; if it
left `iterations == max_iterations`, throw a `std::runtime_error`.
Result: the thrown/normal outcome paired with the number of
`waitForServer` calls performed. -/
def createPointHeadClient (wait ok : ℕ → Bool) : Except String Unit × ℕ :=
  let r := connectAux wait ok (max_iterations + 1) 0 0
  if r.1 = max_iterations then
    (Except.error
      "Error in createPointHeadClient: head controller action server not available",
      r.2)
  else (Except.ok (), r.2)

/-- The intrinsics wait loop of `main`:
`while (ros::ok() && !intrinsicsReceived) { ros::spinOnce(); Duration(0.2).sleep(); }`.
`ok n` is `ros::ok()` at the n-th condition check; `msg n = some K` means
`ros::spinOnce()` of cycle n delivers a calibration message with array `K`
to `getCameraIntrinsics` (the subscription has queue size 1, so at most one
message per spin). Returns `some (state, exit cycle index, number of
callback invocations)`, or `none` if `fuel` cycles did not suffice (the
source loop has no bound of its own). -/
def introsLoop (ok : ℕ → Bool) (msg : ℕ → Option (Fin 9 → ℚ)) :
    ℕ → ℕ → ℕ → ProgState → Option (ProgState × ℕ × ℕ)
  | 0, _, _, _ => none
  | fuel + 1, n, w, s =>
    if ok n && !s.intrinsicsReceived then
      match msg n with
      | some K => introsLoop ok msg fuel (n + 1) (w + 1) (getCameraIntrinsics K s)
      | none => introsLoop ok msg fuel (n + 1) w s
    else some (s, n, w)

/-- Externally visible steps of `main`, in program order. -/
inductive Action where
  | logFatalClock
  | subscribeCameraInfo
  | shutdownSub
  | createWindow
  | setMouseCallback
  | subscribeImage
  | spin
  | destroyWindow
  deriving DecidableEq, Repr

/-- How `main` ends. -/
inductive MainOutcome where
  | exitFailure
  | exitSuccess
  | threw (e : String)
  | fuelOut
  deriving DecidableEq, Repr

/-- Control flow of `main` after `ros::init`: wait for a valid clock
(`clockValid` is the result of `ros::Time::waitForValid(WallDuration(5.0))`);
on failure log fatal and return `EXIT_FAILURE` before any subscription;
otherwise subscribe to the camera-info topic, run the intrinsics wait loop,
shut the subscription down, call `createPointHeadClient` (whose uncaught
`std::runtime_error` terminates the process), then create the window, set
the mouse callback, subscribe to images, `ros::spin()` until shutdown,
destroy the window and return `EXIT_SUCCESS`. -/
def mainModel (clockValid : Bool) (ok : ℕ → Bool) (msg : ℕ → Option (Fin 9 → ℚ))
    (wait okc : ℕ → Bool) (fuel : ℕ) : MainOutcome × List Action :=
  if !clockValid then (MainOutcome.exitFailure, [Action.logFatalClock])
  else
    match introsLoop ok msg fuel 0 0 initState with
    | none => (MainOutcome.fuelOut, [Action.subscribeCameraInfo])
    | some _ =>
      match (createPointHeadClient wait okc).1 with
      | Except.error e =>
          (MainOutcome.threw e, [Action.subscribeCameraInfo, Action.shutdownSub])
      | Except.ok _ =>
          (MainOutcome.exitSuccess,
            [Action.subscribeCameraInfo, Action.shutdownSub, Action.createWindow,
             Action.setMouseCallback, Action.subscribeImage, Action.spin,
             Action.destroyWindow])

/-! ### Helper lemmas -/

theorem matrixOfK_00 (K : Fin 9 → ℚ) : matrixOfK K 0 0 = K 0 := by
  simp [matrixOfK, matWrite, matZeros]

theorem matrixOfK_11 (K : Fin 9 → ℚ) : matrixOfK K 1 1 = K 4 := by
  simp [matrixOfK, matWrite, matZeros]

theorem matrixOfK_02 (K : Fin 9 → ℚ) : matrixOfK K 0 2 = K 2 := by
  simp [matrixOfK, matWrite, matZeros]

theorem matrixOfK_12 (K : Fin 9 → ℚ) : matrixOfK K 1 2 = K 5 := by
  simp [matrixOfK, matWrite, matZeros]

theorem matrixOfK_22 (K : Fin 9 → ℚ) : matrixOfK K 2 2 = 1 := by
  simp [matrixOfK, matWrite, matZeros]

theorem matrixOfK_01 (K : Fin 9 → ℚ) : matrixOfK K 0 1 = 0 := by
  simp [matrixOfK, matWrite, matZeros]

theorem matrixOfK_10 (K : Fin 9 → ℚ) : matrixOfK K 1 0 = 0 := by
  simp [matrixOfK, matWrite, matZeros]

theorem matrixOfK_20 (K : Fin 9 → ℚ) : matrixOfK K 2 0 = 0 := by
  simp [matrixOfK, matWrite, matZeros]

theorem matrixOfK_21 (K : Fin 9 → ℚ) : matrixOfK K 2 1 = 0 := by
  simp [matrixOfK, matWrite, matZeros]

/-- On the primary-button-down event, `onMouse` dispatches exactly this goal. -/
theorem onMouse_lbdown (u v : Int) (M : Mat3) (now : ℚ) :
    onMouse EVENT_LBUTTONDOWN u v M now = some
      { pointing_frame := cameraFrame
        pointing_axis := { x := 0, y := 0, z := 1 }
        min_duration := 1/2
        max_velocity := 1
        target :=
          { frame_id := cameraFrame
            stamp := now
            point :=
              { x := ((u : ℚ) - M 0 2) / M 0 0 * 1
                y := ((v : ℚ) - M 1 2) / M 1 1 * 1
                z := 1 } } } := by
  simp [onMouse]

/-! ### Claim theorems: projection and click handling -/

/-- Claim C1: for every integer pixel coordinate (u, v) and every populated
intrinsic matrix with entries fx = K[0], fy = K[4], cx = K[2], cy = K[5],
the projection performed on a qualifying click computes
x = (u - cx)/fx, y = (v - cy)/fy with fixed depth Z = 1, and the dispatched
ray point equals (x*Z, y*Z, Z) in the camera optical frame; u and v are
arbitrary integers, with no bounds checking against an image size. -/
theorem claim_C1 (u v : ℤ) (K : Fin 9 → ℚ) (now : ℚ) :
    ∃ g, onMouse EVENT_LBUTTONDOWN u v (matrixOfK K) now = some g ∧
      g.target.point = project_spec u v (K 0) (K 4) (K 2) (K 5) ∧
      g.target.frame_id = cameraFrame := by
  refine ⟨_, onMouse_lbdown u v (matrixOfK K) now, ?_, rfl⟩
  simp [project_spec, matrixOfK_00, matrixOfK_11, matrixOfK_02, matrixOfK_12]

/-- Claim C3: `onMouse` dispatches a goal if and only if the event type is
the primary-button-down event; for every other event (move, button up,
release, ...) it returns without building a goal. -/
theorem claim_C3 (event : Int) (u v : Int) (M : Mat3) (now : ℚ) :
    (onMouse event u v M now).isSome = true ↔ event = EVENT_LBUTTONDOWN := by
  by_cases h : event = EVENT_LBUTTONDOWN <;> simp [onMouse, h]

/-- Claim C4: the calibration callback, given the flattened row-major
9-element array K, stores a 3x3 matrix with (0,0) = K[0] (fx),
(1,1) = K[4] (fy), (0,2) = K[2] (cx), (1,2) = K[5] (cy), (2,2) = 1, the
remaining four entries zero, and sets the received flag to true. -/
theorem claim_C4 (K : Fin 9 → ℚ) (s : ProgState) :
    (getCameraIntrinsics K s).intrinsicsReceived = true ∧
    ∃ M, (getCameraIntrinsics K s).cameraIntrinsics = some M ∧
      M 0 0 = K 0 ∧ M 1 1 = K 4 ∧ M 0 2 = K 2 ∧ M 1 2 = K 5 ∧ M 2 2 = 1 ∧
      M 0 1 = 0 ∧ M 1 0 = 0 ∧ M 2 0 = 0 ∧ M 2 1 = 0 := by
  exact ⟨rfl, matrixOfK K, rfl, matrixOfK_00 K, matrixOfK_11 K, matrixOfK_02 K,
    matrixOfK_12 K, matrixOfK_22 K, matrixOfK_01 K, matrixOfK_10 K,
    matrixOfK_20 K, matrixOfK_21 K⟩

/-- Claim C6: every qualifying click dispatches a goal with pointing_frame
the camera optical frame, pointing_axis the fixed unit vector (0,0,1),
min_duration 0.5 s, max_velocity 1.0, and target the ray point projected
from the clicked pixel, stamped with that same frame identifier. -/
theorem claim_C6 (u v : ℤ) (K : Fin 9 → ℚ) (now : ℚ) :
    ∃ g, onMouse EVENT_LBUTTONDOWN u v (matrixOfK K) now = some g ∧
      g.pointing_frame = cameraFrame ∧
      g.pointing_axis = { x := 0, y := 0, z := 1 } ∧
      g.min_duration = 1/2 ∧
      g.max_velocity = 1 ∧
      g.target.frame_id = cameraFrame ∧
      g.target.point = project_spec u v (K 0) (K 4) (K 2) (K 5) := by
  refine ⟨_, onMouse_lbdown u v (matrixOfK K) now, rfl, rfl, rfl, rfl, rfl, ?_⟩
  simp [project_spec, matrixOfK_00, matrixOfK_11, matrixOfK_02, matrixOfK_12]

/-- Claim C9: for every positive fx = K[0] and fy = K[4], projecting the
principal point itself (u = cx, v = cy) yields exactly the ray point
(0, 0, 1). -/
theorem claim_C9 (u v : ℤ) (K : Fin 9 → ℚ) (now : ℚ)
    (hfx : 0 < K 0) (hfy : 0 < K 4)
    (hu : (u : ℚ) = K 2) (hv : (v : ℚ) = K 5) :
    ∃ g, onMouse EVENT_LBUTTONDOWN u v (matrixOfK K) now = some g ∧
      g.target.point = { x := 0, y := 0, z := 1 } := by
  refine ⟨_, onMouse_lbdown u v (matrixOfK K) now, ?_⟩
  simp [matrixOfK_00, matrixOfK_11, matrixOfK_02, matrixOfK_12, hu, hv]

/-- The calibration array of the spec's worked example:
fx = 500, fy = 500, cx = 320, cy = 240. -/
def exampleK : Fin 9 → ℚ := ![500, 0, 320, 0, 500, 240, 0, 0, 1]

/-- Witness for C9: clicking the principal point (320, 240) under
`exampleK` dispatches the ray (0, 0, 1). -/
theorem claim_C9_witness :
    ∃ g, onMouse EVENT_LBUTTONDOWN 320 240 (matrixOfK exampleK) 0 = some g ∧
      g.target.point = { x := 0, y := 0, z := 1 } :=
  claim_C9 320 240 exampleK 0 (by decide) (by decide) (by decide) (by decide)

/-! ### Loop lemmas -/

/-- Sanity check for the fuel in `createPointHeadClient`: every fuel large
enough to cover the remaining loop-guard bound gives the same result, so
fuel `max_iterations + 1` computes the source loop exactly. -/
theorem connectAux_fuel_stable (wait ok : ℕ → Bool) :
    ∀ f g i c, max_iterations - i < f → max_iterations - i < g →
      connectAux wait ok f i c = connectAux wait ok g i c := by
  intro f
  induction f with
  | zero => intro g i c hf _; omega
  | succ f ih =>
    intro g i c hf hg
    match g, hg with
    | g + 1, hg =>
      simp only [connectAux]
      by_cases hcond : (!(wait c) && ok c && decide (i < max_iterations)) = true
      · rw [if_pos hcond, if_pos hcond]
        have hi : i < max_iterations := by
          simp only [Bool.and_eq_true, decide_eq_true_eq] at hcond
          exact hcond.2
        exact ih g (i + 1) (c + 1) (by omega) (by omega)
      · rw [if_neg hcond, if_neg hcond]

/-- If `ros::ok()` goes false at the j-th remaining condition check while the
server never comes up, the connect loop exits with `iterations` still below
`max_iterations` (so no error is thrown). -/
theorem connectAux_cancel (wait okc : ℕ → Bool) (hw : ∀ n, wait n = false) :
    ∀ j fuel c, okc (c + j) = false → c + j < max_iterations → j < fuel →
      (connectAux wait okc fuel c c).1 < max_iterations := by
  intro j
  induction j with
  | zero =>
    intro fuel c ho hc hfuel
    match fuel, hfuel with
    | fuel + 1, _ =>
      simp only [connectAux, hw c, Nat.add_zero] at ho ⊢
      simp [ho]
      omega
  | succ j ih =>
    intro fuel c ho hc hfuel
    match fuel, hfuel with
    | fuel + 1, _ =>
      simp only [connectAux]
      by_cases hcond : (!(wait c) && okc c && decide (c < max_iterations)) = true
      · rw [if_pos hcond]
        exact ih fuel (c + 1)
          (by rw [Nat.add_right_comm]; exact ho)
          (by omega) (by omega)
      · rw [if_neg hcond]
        simpa using Nat.lt_of_le_of_lt (Nat.le_add_right c (j + 1)) hc

/-- If `ros::ok()` is false at the j-th remaining check, the intrinsics wait
loop returns within those j cycles, whatever the message stream does. -/
theorem introsLoop_cancel (ok : ℕ → Bool) (msg : ℕ → Option (Fin 9 → ℚ)) :
    ∀ j fuel n w s, ok (n + j) = false → j < fuel →
      ∃ s' m w', introsLoop ok msg fuel n w s = some (s', m, w') ∧ m ≤ n + j := by
  intro j
  induction j with
  | zero =>
    intro fuel n w s ho hfuel
    match fuel, hfuel with
    | fuel + 1, _ =>
      simp only [Nat.add_zero] at ho
      exact ⟨s, n, w, by simp [introsLoop, ho], Nat.le_refl n⟩
  | succ j ih =>
    intro fuel n w s ho hfuel
    match fuel, hfuel with
    | fuel + 1, _ =>
      simp only [introsLoop]
      by_cases hcond : (ok n && !s.intrinsicsReceived) = true
      · rw [if_pos hcond]
        have ho' : ok (n + 1 + j) = false := by rw [Nat.add_right_comm]; exact ho
        cases hmsg : msg n with
        | some K =>
          obtain ⟨s', m, w', hr, hm⟩ :=
            ih fuel (n + 1) (w + 1) (getCameraIntrinsics K s) ho' (by omega)
          exact ⟨s', m, w', hr, by omega⟩
        | none =>
          obtain ⟨s', m, w', hr, hm⟩ := ih fuel (n + 1) w s ho' (by omega)
          exact ⟨s', m, w', hr, by omega⟩
      · rw [if_neg hcond]
        exact ⟨s, n, w, rfl, Nat.le_add_right n (j + 1)⟩

/-- When the intrinsics wait loop starts with the flag unset and ends with it
set, the calibration callback ran exactly once, on the first delivered
message, and the stored matrix is the one extracted from that message. -/
theorem introsLoop_first_write (ok : ℕ → Bool) (msg : ℕ → Option (Fin 9 → ℚ)) :
    ∀ fuel n w s, s.intrinsicsReceived = false →
      ∀ s' m w', introsLoop ok msg fuel n w s = some (s', m, w') →
        s'.intrinsicsReceived = true →
        w' = w + 1 ∧ ∃ j K, n ≤ j ∧ j < m ∧ msg j = some K ∧
          (∀ i, n ≤ i → i < j → msg i = none) ∧
          s'.cameraIntrinsics = some (matrixOfK K) := by
  intro fuel
  induction fuel with
  | zero => intro n w s _ s' m w' hr; exact absurd hr (by simp [introsLoop])
  | succ fuel ih =>
    intro n w s hs s' m w' hr hrcv
    rw [introsLoop] at hr
    cases hok : ok n with
    | false =>
      rw [if_neg (by simp [hok])] at hr
      have hs' : s = s' := congrArg Prod.fst (Option.some.inj hr)
      rw [← hs', hs] at hrcv
      exact absurd hrcv (by simp)
    | true =>
      rw [if_pos (by simp [hok, hs])] at hr
      cases hmsg : msg n with
      | none =>
        rw [hmsg] at hr
        obtain ⟨hw', j, K, hnj, hjm, hjK, hfirst, hmat⟩ :=
          ih (n + 1) w s hs s' m w' hr hrcv
        refine ⟨hw', j, K, by omega, hjm, hjK, ?_, hmat⟩
        intro i hni hij
        rcases Nat.eq_or_lt_of_le hni with h | h
        · rw [← h]; exact hmsg
        · exact hfirst i h hij
      | some K =>
        rw [hmsg] at hr
        have hr2 : introsLoop ok msg fuel (n + 1) (w + 1)
            (getCameraIntrinsics K s) = some (s', m, w') := hr
        cases fuel with
        | zero => exact absurd hr2 (by simp [introsLoop])
        | succ fuel =>
          have hstep : introsLoop ok msg (fuel + 1) (n + 1) (w + 1)
              (getCameraIntrinsics K s) =
              some (getCameraIntrinsics K s, n + 1, w + 1) := by
            simp [introsLoop, getCameraIntrinsics]
          rw [hstep] at hr2
          have h3 := Option.some.inj hr2
          have hs' : getCameraIntrinsics K s = s' := congrArg Prod.fst h3
          have hm : n + 1 = m := congrArg (fun p => p.2.1) h3
          have hw' : w + 1 = w' := congrArg (fun p => p.2.2) h3
          refine ⟨hw'.symm, n, K, Nat.le_refl n, by omega, hmsg, ?_, ?_⟩
          · intro i hni hin; omega
          · rw [← hs']; rfl

/-! ### Claim theorems: startup, retry and shutdown behaviour -/

/-- Counterexample to claim C2 as stated: with a server that never becomes
ready and `ros::ok()` true throughout, `createPointHeadClient` performs 4
calls to `waitForServer` (the condition is evaluated once per loop pass and
once more to exit), not 3; the routine does throw. -/
theorem claim_C2_counterexample :
    (createPointHeadClient (fun _ => false) (fun _ => true)).2 ≠ 3 ∧
    (createPointHeadClient (fun _ => false) (fun _ => true)).2 = 4 := by
  decide

/-- Claim C2 (amended): if the remote actuation service never becomes ready
and no shutdown occurs, `createPointHeadClient` performs exactly 4 wait
calls, each bounded by the 2-second timeout (total wait about 8 seconds),
and then throws the runtime error rather than returning normally. -/
theorem claim_C2 (wait ok : ℕ → Bool)
    (hw : ∀ n, wait n = false) (ho : ∀ n, ok n = true) :
    createPointHeadClient wait ok =
      (Except.error
        "Error in createPointHeadClient: head controller action server not available",
        4) ∧
    (4 : ℚ) * timeoutPerAttempt = 8 := by
  constructor
  · simp [createPointHeadClient, connectAux, hw, ho, max_iterations]
  · norm_num [timeoutPerAttempt]

/-- Witness for C2: the never-ready, never-shutdown oracles realize the
hypotheses. -/
theorem claim_C2_witness :
    createPointHeadClient (fun _ => false) (fun _ => true) =
      (Except.error
        "Error in createPointHeadClient: head controller action server not available",
        4) ∧
    (4 : ℚ) * timeoutPerAttempt = 8 :=
  claim_C2 (fun _ => false) (fun _ => true) (fun _ => rfl) (fun _ => rfl)

/-- Claim C5: when the intrinsics wait loop of `main` (started on the unset
globals) terminates with the received flag set, the calibration callback ran
exactly once, on the first delivered calibration message, and the stored
matrix is the one extracted from that message; later messages are never
processed (the loop exits at the next check and `main` then shuts the
subscription down), and no other code path writes the matrix (`onMouse`
only reads it). -/
theorem claim_C5 (ok : ℕ → Bool) (msg : ℕ → Option (Fin 9 → ℚ)) (fuel : ℕ)
    (s : ProgState) (m w : ℕ)
    (hr : introsLoop ok msg fuel 0 0 initState = some (s, m, w))
    (hrcv : s.intrinsicsReceived = true) :
    w = 1 ∧ ∃ j K, j < m ∧ msg j = some K ∧
      (∀ i, i < j → msg i = none) ∧
      s.cameraIntrinsics = some (matrixOfK K) := by
  obtain ⟨hw, j, K, _, hjm, hjK, hfirst, hmat⟩ :=
    introsLoop_first_write ok msg fuel 0 0 initState rfl s m w hr hrcv
  exact ⟨hw, j, K, hjm, hjK, fun i hij => hfirst i (Nat.zero_le i) hij, hmat⟩

/-- Witness for C5: a run where the first spin cycle delivers `exampleK`. -/
theorem claim_C5_witness :
    1 = 1 ∧ ∃ j K, j < 1 ∧
      (fun n => if n = 0 then some exampleK else none) j = some K ∧
      (∀ i, i < j →
        (fun n => if n = 0 then some exampleK else none) i = none) ∧
      (ProgState.mk (some (matrixOfK exampleK)) true).cameraIntrinsics =
        some (matrixOfK K) :=
  claim_C5 (fun _ => true) (fun n => if n = 0 then some exampleK else none) 2
    (ProgState.mk (some (matrixOfK exampleK)) true) 1 1 rfl rfl

/-- Claim C7: with no valid time source, `main` logs the fatal diagnostic and
exits with the failure code before any subscription is created (the action
trace is exactly the fatal log); with a valid time source, startup proceeds
to the intrinsics-waiting phase (the camera-info subscription is created). -/
theorem claim_C7 (ok : ℕ → Bool) (msg : ℕ → Option (Fin 9 → ℚ))
    (wait okc : ℕ → Bool) (fuel : ℕ) :
    mainModel false ok msg wait okc fuel =
      (MainOutcome.exitFailure, [Action.logFatalClock]) ∧
    Action.subscribeCameraInfo ∈ (mainModel true ok msg wait okc fuel).2 := by
  constructor
  · rfl
  · simp only [mainModel, Bool.not_true, Bool.false_eq_true, if_false]
    cases introsLoop ok msg fuel 0 0 initState with
    | none => simp
    | some p =>
      cases (createPointHeadClient wait okc).1 with
      | error e => simp
      | ok u => simp

/-- Claim C8: the intrinsics wait loop terminates within one poll interval
of the cancellation signal: if `ros::ok()` is false at check k, the loop
returns having run at most k cycles, whatever the calibration messages do. -/
theorem claim_C8 (ok : ℕ → Bool) (msg : ℕ → Option (Fin 9 → ℚ))
    (k fuel : ℕ) (s0 : ProgState) (hk : ok k = false) (hfuel : k < fuel) :
    ∃ s m w, introsLoop ok msg fuel 0 0 s0 = some (s, m, w) ∧ m ≤ k := by
  obtain ⟨s, m, w, hr, hm⟩ :=
    introsLoop_cancel ok msg k fuel 0 0 s0 (by simpa using hk) hfuel
  exact ⟨s, m, w, hr, by simpa using hm⟩

/-- Witness for C8: cancellation already active at the first check, no
calibration message ever delivered. -/
theorem claim_C8_witness :
    ∃ s m w, introsLoop (fun _ => false) (fun _ => none) 1 0 0 initState =
      some (s, m, w) ∧ m ≤ 0 :=
  claim_C8 (fun _ => false) (fun _ => none) 0 1 initState rfl (by decide)

/-- Claim C10: if shutdown is requested during the connection wait before 3
failed attempts have accumulated, `createPointHeadClient` returns normally
(no throw), and `main` runs the remaining startup steps and ends with the
success exit code. -/
theorem claim_C10 (ok : ℕ → Bool) (msg : ℕ → Option (Fin 9 → ℚ))
    (wait okc : ℕ → Bool) (fuel k : ℕ)
    (hw : ∀ n, wait n = false) (hk : k < max_iterations) (ho : okc k = false)
    (hr : (introsLoop ok msg fuel 0 0 initState).isSome = true) :
    (createPointHeadClient wait okc).1 = Except.ok () ∧
    mainModel true ok msg wait okc fuel =
      (MainOutcome.exitSuccess,
        [Action.subscribeCameraInfo, Action.shutdownSub, Action.createWindow,
         Action.setMouseCallback, Action.subscribeImage, Action.spin,
         Action.destroyWindow]) := by
  have hlt : (connectAux wait okc (max_iterations + 1) 0 0).1 < max_iterations :=
    connectAux_cancel wait okc hw k (max_iterations + 1) 0 (by simpa using ho)
      (by simpa using hk) (by omega)
  have hok : (createPointHeadClient wait okc).1 = Except.ok () := by
    simp [createPointHeadClient, Nat.ne_of_lt hlt]
  refine ⟨hok, ?_⟩
  obtain ⟨p, hp⟩ := Option.isSome_iff_exists.mp hr
  simp [mainModel, hp, hok]

/-- Witness for C10: shutdown already requested at the first connection
check, intrinsics delivered on the first spin cycle. -/
theorem claim_C10_witness :
    (createPointHeadClient (fun _ => false) (fun _ => false)).1 =
      Except.ok () ∧
    mainModel true (fun _ => true) (fun _ => some exampleK)
      (fun _ => false) (fun _ => false) 2 =
      (MainOutcome.exitSuccess,
        [Action.subscribeCameraInfo, Action.shutdownSub, Action.createWindow,
         Action.setMouseCallback, Action.subscribeImage, Action.spin,
         Action.destroyWindow]) :=
  claim_C10 (fun _ => true) (fun _ => some exampleK) (fun _ => false)
    (fun _ => false) 2 0 (fun _ => rfl) (by decide) rfl rfl

end LookToPoint
